import Mathlib

/-!
Verification of the `techindeck/fileuploader` Express/Multer/S3 upload service
(`src/index.ts`) via a shallow embedding in Lean 4.

The embedding models:
* the JavaScript string primitives the code uses (`String.prototype.substring`,
  Node's `path.extname`, template-literal interpolation of possibly-undefined
  environment variables, `Number(...)` conversion and the `||` fallback);
* the file-type filter `checkFileType` (an unanchored regex
  `/jpeg|jpg|png|gif/` tested against the lowercased extension and against the
  declared MIME type);
* the random key generator `getRandomFileName`, parametrised by the two strings
  produced by `Math.random().toString(36)` (the only nondeterminism);
* the multer pipeline (filter stage, 11,000,000-byte size limit, storage
  write) and the `/upload` and `/delete` route handlers' responses.
-/

namespace FileUploader

/-- Does the character list `pat` occur as a contiguous infix of `s`?
This is what the unanchored JavaScript regex literal `w` (a plain word with no
metacharacters) tests via `/w/.test(s)`. -/
def hasInfix (pat : List Char) : List Char → Bool
  | [] => pat.isEmpty
  | c :: rest => pat.isPrefixOf (c :: rest) || hasInfix pat rest

/-- String-level wrapper for `hasInfix`: JS `/pat/.test(s)` for a literal
word `pat`. -/
def strTest (pat s : String) : Bool :=
  hasInfix pat.toList s.toList

/-- JavaScript `s.substring(a, b)`: character indices clamped to the string
length, arguments swapped when `a > b`; returns the characters in
`[min a b, max a b)`. -/
def jsSubstring (s : String) (a b : Nat) : String :=
  String.mk (((s.toList).drop (min a b)).take (max a b - min a b))

/-- JavaScript string interpolation of a possibly-undefined environment
variable, as in `String(process.env.X)` or a template literal: `undefined`
prints as the string "undefined". -/
def jsString : Option String → String
  | none => "undefined"
  | some s => s

/-- ASCII lowercasing of one character, the fragment of JavaScript
`String.prototype.toLowerCase` relevant here (the regex words are ASCII). -/
def asciiLower (c : Char) : Char :=
  if 65 ≤ c.toNat ∧ c.toNat ≤ 90 then Char.ofNat (c.toNat + 32) else c

/-- JavaScript `s.toLowerCase()` restricted to ASCII letters. -/
def jsToLower (s : String) : String :=
  String.mk (s.toList.map asciiLower)

/-- Node `path.extname` (POSIX), restricted to the basename after the last
slash: the suffix starting at the last dot of the basename, empty when there
is no dot, when the only dot is the leading character (dotfiles), or for the
special names "." and "..". -/
def extname (p : String) : String :=
  let base := (p.toList.reverse.takeWhile (fun c => c ≠ '/')).reverse
  if base = ['.'] ∨ base = ['.', '.'] then ""
  else
    let r := base.reverse
    let pre := r.takeWhile (fun c => c ≠ '.')
    if pre.length = r.length then ""
    else if r.length - pre.length - 1 = 0 then ""
    else String.mk ('.' :: pre.reverse)

/-- The regex literal `/jpeg|jpg|png|gif/` from `checkFileType`, applied with
`.test(s)`: true iff `s` contains one of the four words as a substring
(the regex is unanchored). -/
def filetypesTest (s : String) : Bool :=
  strTest "jpeg" s || strTest "jpg" s || strTest "png" s || strTest "gif" s

/-- A multipart file as seen by the filter: original client filename and
declared MIME type. -/
structure MFile where
  originalname : String
  mimetype : String
deriving DecidableEq, Repr

/-- The single callback invocation `checkFileType` performs: `cb(null, true)`
or `cb('Error: Images Only!')`. -/
inductive CbResult where
  | ok
  | err (msg : String)
deriving DecidableEq, Repr

/-- `checkFileType` from src/index.ts: tests the lowercased
`path.extname(file.originalname)` and `file.mimetype` against
`/jpeg|jpg|png|gif/`; calls `cb(null, true)` when both pass, otherwise
`cb('Error: Images Only!')`. -/
def checkFileType (file : MFile) : CbResult :=
  let extOk := filetypesTest (jsToLower (extname file.originalname))
  let mimeOk := filetypesTest file.mimetype
  if mimeOk && extOk then .ok else .err "Error: Images Only!"

/-- `getRandomFileName` from src/index.ts, parametrised by the two strings
`r1`, `r2` produced by the two calls to `Math.random().toString(36)` (the only
nondeterminism in the function): it concatenates
`r1.substring(2, 15)`, `r2.substring(2, 15)` and
`path.extname(file.originalname)` (extension case untouched). -/
def getRandomFileName (r1 r2 : String) (file : MFile) : String :=
  jsSubstring r1 2 15 ++ jsSubstring r2 2 15 ++ extname file.originalname

/-- The random token part of a generated file name: the two
`substring(2, 15)` fragments, without the extension. -/
def randToken (r1 r2 : String) : String :=
  jsSubstring r1 2 15 ++ jsSubstring r2 2 15

/-- The storage key computed by the multer-s3 `key` callback in src/index.ts:
`saskengallery/${getRandomFileName(file)}`. -/
def s3Key (r1 r2 : String) (file : MFile) : String :=
  "saskengallery/" ++ getRandomFileName r1 r2 file

/-- An upload-stage error value: the string passed by `checkFileType`'s
rejection, multer's fixed-size-limit error, or an opaque storage error. -/
inductive UploadErr where
  | str (s : String)
  | limitFileSize
  | storage (detail : String)
deriving DecidableEq, Repr

/-- Result of the multer middleware for one file: rejected with an error (no
storage write happened), or stored in the bucket under a key. -/
inductive PipelineResult where
  | rejected (e : UploadErr)
  | stored (key : String)
deriving DecidableEq, Repr

/-- The `fileSize` limit configured in the multer options in src/index.ts. -/
def fileSizeLimit : Nat := 11000000

/-- A multipart file together with its size in bytes, as streamed through the
multer middleware. -/
structure UpFile where
  originalname : String
  mimetype : String
  size : Nat
deriving DecidableEq, Repr

/-- Modelled from the spec: the multer middleware composition is framework
code, not part of this repository; per the spec it runs the filter stage
(which calls this repository's `checkFileType`), then enforces the configured
`fileSize` limit, and only then writes to storage under the key computed by
this repository's key callback. `r1`, `r2` are the `Math.random().toString(36)`
outputs used by the key callback. -/
def uploadPipeline (f : UpFile) (r1 r2 : String) : PipelineResult :=
  match checkFileType ⟨f.originalname, f.mimetype⟩ with
  | .err m => .rejected (.str m)
  | .ok =>
    if fileSizeLimit < f.size then .rejected .limitFileSize
    else .stored (s3Key r1 r2 ⟨f.originalname, f.mimetype⟩)

/-- The JSON body of a `/upload` response: `{ error: <e> }` or
`{ response: <r>, fileUrl: <u> }`. -/
inductive UploadResBody where
  | errObj (e : UploadErr)
  | successObj (response : String) (fileUrl : String)
deriving DecidableEq, Repr

/-- An HTTP response for the `/upload` route: status code and JSON body.
Express's `res.json` without a prior `res.status` call sends status 200. -/
structure UploadResponse where
  status : Nat
  body : UploadResBody
deriving DecidableEq, Repr

/-- The stored file object multer-s3 attaches to the request on success; the
handler reads its `key` field. -/
structure SavedFile where
  key : String
deriving DecidableEq, Repr

/-- The `/upload` route handler from src/index.ts, as a function of the
middleware outcome: when the middleware reported an error it sends
`{ error: error }`; when `req.file` is undefined it sends
`{ error: 'No File Selected' }`; otherwise it sends the success body with
`fileUrl` the template literal
`${process.env.AWS_BUCKET_PATH}/${req.file.key}`. All three use `res.json`
with no explicit status, so status 200. -/
def uploadRouteHandler (bucketPath : Option String) (error : Option UploadErr)
    (file : Option SavedFile) : UploadResponse :=
  match error with
  | some e => ⟨200, .errObj e⟩
  | none =>
    match file with
    | none => ⟨200, .errObj (.str "No File Selected")⟩
    | some f =>
      ⟨200, .successObj "Image Uploaded Successfully!" (jsString bucketPath ++ "/" ++ f.key)⟩

/-- The JSON body of a `/delete` response: `{ message: <m> }` or
`{ error: <e> }`. -/
inductive DeleteResBody where
  | message (m : String)
  | errorMsg (e : String)
deriving DecidableEq, Repr

/-- An HTTP response for the `/delete` route. -/
structure DeleteResponse where
  status : Nat
  body : DeleteResBody
deriving DecidableEq, Repr

/-- The JSON body of a `/delete` request: `const { key } = req.body`; the
`key` property may be absent (`undefined`). -/
structure DeleteBody where
  key : Option String
deriving DecidableEq, Repr

/-- The params object built by the `/delete` route in src/index.ts:
`Bucket: String(process.env.AWS_BUCKET_NAME), Key: key`. -/
structure DeleteParams where
  bucket : String
  -- the Key field; `key` taken from the body unchanged, possibly undefined
  keyField : Option String
deriving DecidableEq, Repr

/-- Construction of the delete params from the environment and request body,
exactly as the route does: no validation of `key`. -/
def deleteParams (bucketNameEnv : Option String) (body : DeleteBody) : DeleteParams :=
  { bucket := jsString bucketNameEnv, keyField := body.key }

/-- The continuation the `/delete` route attaches to the single
`s3.send(new DeleteObjectCommand(params))` promise: `.then` answers 200
`{ message: 'File deleted successfully' }`, `.catch` answers 500
`{ error: 'Failed to delete file from S3' }` (the caught error is only
logged). `δ` is the type of the storage error, `α` the type of the
`DeleteObjectCommandOutput`; the response depends on neither value. -/
def deleteHandler {δ α : Type} (result : Except δ α) : DeleteResponse :=
  match result with
  | .ok _ => ⟨200, .message "File deleted successfully"⟩
  | .error _ => ⟨500, .errorMsg "Failed to delete file from S3"⟩

/-- The `/delete` route end to end: build the params from the body, make one
`s3.send` call, map its outcome through the response continuation. `send` is
the storage client's delete operation; it is invoked exactly once. -/
def deleteRoute {δ α : Type} (bucketNameEnv : Option String) (body : DeleteBody)
    (send : DeleteParams → Except δ α) : DeleteResponse :=
  deleteHandler (send (deleteParams bucketNameEnv body))

/-- A JavaScript number as far as this code observes it: `NaN` or a rational
value (the doubles produced by `Number(...)` on the inputs we consider are
exact decimals). -/
inductive JSNum where
  | nan
  | num (q : ℚ)
deriving DecidableEq, Repr

/-- JavaScript falsiness of a number: `NaN` and `0` (including `-0`, which
`ℚ` identifies with `0`) are falsy. -/
def jsFalsy : JSNum → Bool
  | .nan => true
  | .num q => q = 0

/-- JavaScript `a || b` on a number `a` with number fallback `b`. -/
def jsOrNum (a b : JSNum) : JSNum :=
  if jsFalsy a then b else a

/-- JS whitespace stripped by `Number(...)` (the common subset). -/
def isJsSpace (c : Char) : Bool :=
  c = ' ' || c = '\t' || c = '\n' || c = '\r'

/-- Numeric value of a digit list, most significant first. -/
def digitsVal (cs : List Char) : Nat :=
  cs.foldl (fun a c => 10 * a + (c.toNat - 48)) 0

/-- Parse a signed decimal literal (`sign? digits? ('.' digits?)?`, at least
one digit), the decimal subset of JavaScript's string-to-number grammar. -/
def parseJsDec (cs : List Char) : Option ℚ :=
  let signed : ℚ → ℚ :=
    match cs with
    | '-' :: _ => fun q => -q
    | _ => id
  let body :=
    match cs with
    | '+' :: t => t
    | '-' :: t => t
    | t => t
  let intPart := body.takeWhile Char.isDigit
  let rest := body.drop intPart.length
  match rest with
  | [] =>
    if intPart.isEmpty then none
    else some (signed (digitsVal intPart))
  | '.' :: frac =>
    if frac.all Char.isDigit && !(intPart.isEmpty && frac.isEmpty) then
      some (signed ((digitsVal intPart : ℚ) + (digitsVal frac : ℚ) / (10 : ℚ) ^ frac.length))
    else none
  | _ => none

/-- `Number(process.env.APP_PORT)`: `Number(undefined)` is `NaN`; on a string,
whitespace is trimmed, the empty remainder converts to `0`, a decimal literal
converts to its value, and anything else is `NaN`. (Hexadecimal, exponent and
`Infinity` literals are outside this model; every string the claims mention is
covered.) -/
def jsNumber : Option String → JSNum
  | none => .nan
  | some s =>
    let t := ((s.toList.dropWhile isJsSpace).reverse.dropWhile isJsSpace).reverse
    if t.isEmpty then .num 0
    else
      match parseJsDec t with
      | some q => .num q
      | none => .nan

/-- The `port` binding from src/index.ts:
`Number(process.env.APP_PORT) || 5000`. -/
def port (appPortEnv : Option String) : JSNum :=
  jsOrNum (jsNumber appPortEnv) (.num 5000)

/-- Did the pipeline store the file? -/
def isStored : PipelineResult → Bool
  | .stored _ => true
  | .rejected _ => false

/-- Spec-side predicate (for comparison with the code, not taken from the
code): the file's extension, compared case-insensitively, is one of
{jpg, jpeg, png, gif}. -/
def specExtInSet (f : MFile) : Bool :=
  [".jpg", ".jpeg", ".png", ".gif"].contains (jsToLower (extname f.originalname))

/-- Spec-side predicate (for comparison with the code, not taken from the
code): the declared MIME type matches an image type over the set
{jpg, jpeg, png, gif}. -/
def specMimeInSet (f : MFile) : Bool :=
  ["image/jpeg", "image/jpg", "image/png", "image/gif"].contains f.mimetype

/- ------------------------------------------------------------------ -/
/- Helper lemmas                                                      -/
/- ------------------------------------------------------------------ -/

/-- A `substring(2, 15)` fragment has at most 13 characters. -/
theorem jsSubstring_two_fifteen_length (s : String) :
    (jsSubstring s 2 15).length ≤ 13 := by
  simp only [jsSubstring, String.length_mk]
  calc ((s.toList.drop (min 2 15)).take (max 2 15 - min 2 15)).length
      ≤ max 2 15 - min 2 15 :=
        List.length_take_le (max 2 15 - min 2 15) (s.toList.drop (min 2 15))
    _ ≤ 13 := by norm_num

/-- The random token is at most 26 characters long. -/
theorem randToken_length_le (r1 r2 : String) : (randToken r1 r2).length ≤ 26 := by
  simp only [randToken, String.length_append]
  have h1 := jsSubstring_two_fifteen_length r1
  have h2 := jsSubstring_two_fifteen_length r2
  omega

/-- The filter function either accepts or rejects with the fixed message:
no other callback invocation is possible. -/
theorem checkFileType_total (f : MFile) :
    checkFileType f = .ok ∨ checkFileType f = .err "Error: Images Only!" := by
  unfold checkFileType
  by_cases h : (filetypesTest f.mimetype && filetypesTest (jsToLower (extname f.originalname))) = true
  · exact Or.inl (by simp [h])
  · exact Or.inr (by simp [h])

/-- Characterisation of acceptance: both unanchored regex tests pass. -/
theorem checkFileType_ok_iff (f : MFile) :
    checkFileType f = .ok ↔
      (filetypesTest (jsToLower (extname f.originalname)) = true ∧
       filetypesTest f.mimetype = true) := by
  unfold checkFileType
  rcases hm : filetypesTest f.mimetype <;>
    rcases he : filetypesTest (jsToLower (extname f.originalname)) <;>
      simp [hm, he]

/- ------------------------------------------------------------------ -/
/- Claims                                                             -/
/- ------------------------------------------------------------------ -/

/-- C1, counterexample: the claim says every file accepted by the filter
stage has its extension in {jpg, jpeg, png, gif} and a MIME type among the
image types of that set. The regex literal is unanchored, so it is a
substring test: the file "x.apng" (extension ".apng", not in the set) with
MIME type "image/png" is accepted, and the file "y.png" with the non-image
MIME type "application/x-png" is accepted as well. -/
theorem c1_counterexample :
    checkFileType ⟨"x.apng", "image/png"⟩ = .ok ∧
    specExtInSet ⟨"x.apng", "image/png"⟩ = false ∧
    checkFileType ⟨"y.png", "application/x-png"⟩ = .ok ∧
    specMimeInSet ⟨"y.png", "application/x-png"⟩ = false := by decide

/-- C1, amended: a file passes the filter stage iff its lowercased extension
CONTAINS one of jpeg/jpg/png/gif as a substring and its declared MIME type
contains one of them as a substring (the regex /jpeg|jpg|png|gif/ is
unanchored); a file is stored iff it passes that filter and is within the
size limit, so every file failing either substring test is rejected before
any storage write. -/
theorem c1_amended (f : UpFile) (r1 r2 : String) :
    (checkFileType ⟨f.originalname, f.mimetype⟩ = .ok ↔
      (filetypesTest (jsToLower (extname f.originalname)) = true ∧
       filetypesTest f.mimetype = true)) ∧
    ((∃ k, uploadPipeline f r1 r2 = .stored k) ↔
      (checkFileType ⟨f.originalname, f.mimetype⟩ = .ok ∧ f.size ≤ fileSizeLimit)) := by
  refine ⟨checkFileType_ok_iff ⟨f.originalname, f.mimetype⟩, ?_⟩
  unfold uploadPipeline
  rcases checkFileType_total ⟨f.originalname, f.mimetype⟩ with h | h <;> rw [h]
  · by_cases hs : fileSizeLimit < f.size
    · simp [hs, Nat.not_le.mpr hs]
    · simp [hs, Nat.not_lt.mp hs]
  · simp

/-- C2, counterexample: the claim says the random token in the storage key is
20 to 34 characters long. Each token is the concatenation of two
substring(2, 15) fragments of Math.random().toString(36) outputs, so it can
be far shorter: Math.random() can return 0.5, and (0.5).toString(36) is
"0.i", whose substring(2, 15) is "i"; two such draws give the token "ii" of
length 2. -/
theorem c2_counterexample :
    s3Key "0.i" "0.i" ⟨"a.jpg", "image/jpeg"⟩ = "saskengallery/ii.jpg" ∧
    ¬(20 ≤ (randToken "0.i" "0.i").length ∧ (randToken "0.i" "0.i").length ≤ 34) := by
  decide

/-- C2, amended: for every successful upload the returned fileUrl is the
AWS_BUCKET_PATH value, a slash, and the storage key; the storage key is
"saskengallery/" followed by the random token and the original extension
with its case preserved; the token is at most 26 characters (two
substring(2, 15) fragments of at most 13 characters each), not 20 to 34. -/
theorem c2_amended (bp : Option String) (r1 r2 : String) (f : MFile) :
    uploadRouteHandler bp none (some ⟨s3Key r1 r2 f⟩) =
      ⟨200, .successObj "Image Uploaded Successfully!"
        (jsString bp ++ "/" ++ s3Key r1 r2 f)⟩ ∧
    s3Key r1 r2 f = "saskengallery/" ++ randToken r1 r2 ++ extname f.originalname ∧
    (randToken r1 r2).length ≤ 26 := by
  refine ⟨rfl, ?_, randToken_length_le r1 r2⟩
  apply String.ext
  simp [s3Key, getRandomFileName, randToken, String.data_append, List.append_assoc]

/-- C3: when the middleware reports no error but no file is present, the
handler answers with the JSON body mapping "error" to 'No File Selected',
with the Express default status 200, a success-class status. -/
theorem c3_no_file_selected (bp : Option String) :
    uploadRouteHandler bp none none =
      ⟨200, .errObj (.str "No File Selected")⟩ := rfl

/-- C4: the delete route maps a successful storage call to status 200 with
the fixed success message and any failed storage call to status 500 with the
fixed error body; the response never depends on the error value (no leak)
and the storage operation is invoked exactly once (the route is the handler
applied to the outcome of a single send). -/
theorem c4_delete_responses (δ α : Type) :
    (∀ a : α, deleteHandler (Except.ok a : Except δ α) =
      ⟨200, DeleteResBody.message "File deleted successfully"⟩) ∧
    (∀ e : δ, deleteHandler (Except.error e : Except δ α) =
      ⟨500, DeleteResBody.errorMsg "Failed to delete file from S3"⟩) ∧
    (∀ (env : Option String) (body : DeleteBody) (send : DeleteParams → Except δ α),
      deleteRoute env body send = deleteHandler (send (deleteParams env body))) :=
  ⟨fun _ => rfl, fun _ => rfl, fun _ _ _ => rfl⟩

/-- C5: whenever the upload middleware reports an error, the handler sends a
JSON body whose error field is that error value unchanged (with the Express
default status 200), regardless of whether a file object is present. -/
theorem c5_error_passthrough (bp : Option String) (e : UploadErr)
    (file : Option SavedFile) :
    uploadRouteHandler bp (some e) file = ⟨200, .errObj e⟩ := rfl

/-- C6: the delete route performs no local validation of the key: for every
request body, including a missing key, the Key of the delete-object params is
the body's key value unchanged, and the Bucket is the stringified
AWS_BUCKET_NAME environment value. -/
theorem c6_delete_no_validation (env : Option String) (body : DeleteBody) :
    (deleteParams env body).keyField = body.key ∧
    (deleteParams env body).bucket = jsString env :=
  ⟨rfl, rfl⟩

/-- C7: a file whose size exceeds the configured 11,000,000-byte limit is
never stored: the pipeline either rejects it at the size-limit stage, or —
when it also fails the type filter — already at the filter stage. -/
theorem c7_size_limit (f : UpFile) (r1 r2 : String) (h : fileSizeLimit < f.size) :
    isStored (uploadPipeline f r1 r2) = false ∧
    (uploadPipeline f r1 r2 = .rejected .limitFileSize ∨
     uploadPipeline f r1 r2 = .rejected (.str "Error: Images Only!")) := by
  unfold uploadPipeline
  rcases checkFileType_total ⟨f.originalname, f.mimetype⟩ with hc | hc <;> rw [hc]
  · simp [h, isStored]
  · simp [isStored]

/-- C7, witness: the spec's 12MB PNG scenario is over the limit and is not
stored. -/
theorem c7_size_limit_witness :
    fileSizeLimit < 12000000 ∧
    isStored (uploadPipeline ⟨"big.png", "image/png", 12000000⟩ "0.abc" "0.def") = false :=
  ⟨by decide,
   (c7_size_limit ⟨"big.png", "image/png", 12000000⟩ "0.abc" "0.def" (by decide)).1⟩

/-- C8, counterexample: the claim says each call to the key generator yields
a token of at least 20 characters. Math.random() can return 0.25 and 0.75,
whose toString(36) values are "0.9" and "0.r"; the two substring(2, 15)
fragments are then "9" and "r" and the token has length 2. -/
theorem c8_counterexample : ¬ 20 ≤ (randToken "0.9" "0.r").length := by decide

/-- C8, amended: keys of two uploads with the same original extension are
distinct whenever the concatenated random fragments of the two calls differ
(distinctness is guaranteed only up to the PRNG not repeating its output
pair); each token is the concatenation of the two substring(2, 15) base-36
fragments and is at most 26 characters, with no guaranteed lower bound. -/
theorem c8_amended_distinct_keys (r1 r2 r3 r4 : String) (f g : MFile)
    (hext : extname f.originalname = extname g.originalname)
    (htok : randToken r1 r2 ≠ randToken r3 r4) :
    s3Key r1 r2 f ≠ s3Key r3 r4 g ∧
    randToken r1 r2 = jsSubstring r1 2 15 ++ jsSubstring r2 2 15 ∧
    (randToken r1 r2).length ≤ 26 := by
  refine ⟨?_, rfl, randToken_length_le r1 r2⟩
  intro hkey
  apply htok
  apply String.ext
  have hdata := congrArg String.data hkey
  simp only [s3Key, getRandomFileName, String.data_append, List.append_assoc] at hdata
  rw [hext] at hdata
  have h1 := List.append_cancel_left hdata
  rw [← List.append_assoc, ← List.append_assoc] at h1
  have h2 := List.append_cancel_right h1
  simpa [randToken, String.data_append] using h2

/-- C8, witness: two uploads of files with the same extension and typical
distinct random draws produce distinct keys. -/
theorem c8_distinct_keys_witness :
    extname "a.jpg" = extname "b.jpg" ∧
    randToken "0.g1d6eq3hyt4" "0.zz9qq1aabb2" ≠ randToken "0.k2k2k2k2k2k" "0.mnopqrstuvw" ∧
    s3Key "0.g1d6eq3hyt4" "0.zz9qq1aabb2" ⟨"a.jpg", "image/jpeg"⟩ ≠
      s3Key "0.k2k2k2k2k2k" "0.mnopqrstuvw" ⟨"b.jpg", "image/jpeg"⟩ :=
  ⟨by decide, by decide,
   (c8_amended_distinct_keys "0.g1d6eq3hyt4" "0.zz9qq1aabb2" "0.k2k2k2k2k2k"
     "0.mnopqrstuvw" ⟨"a.jpg", "image/jpeg"⟩ ⟨"b.jpg", "image/jpeg"⟩
     (by decide) (by decide)).1⟩

/-- C9: the filter function is total and calls its callback in exactly one of
the two forms: accept, or reject with exactly the string
'Error: Images Only!'. Totality of the embedding captures that the callback
is invoked exactly once and no exception is thrown. -/
theorem c9_callback_total (f : MFile) :
    checkFileType f = .ok ∨ checkFileType f = .err "Error: Images Only!" := by
  unfold checkFileType
  by_cases h : (filetypesTest f.mimetype && filetypesTest (jsToLower (extname f.originalname))) = true
  · exact Or.inl (by simp [h])
  · exact Or.inr (by simp [h])

/-- C10: the listen port is 5000 exactly when Number(APP_PORT) is NaN (in
particular when the variable is unset or non-numeric), 0 (in particular the
empty string or "0"), or literally 5000; otherwise the converted value is
used. The named cases are evaluated concretely. -/
theorem c10_port_fallback :
    (∀ env, port env = .num 5000 ↔
      (jsNumber env = .nan ∨ jsNumber env = .num 0 ∨ jsNumber env = .num 5000)) ∧
    port none = .num 5000 ∧
    port (some "") = .num 5000 ∧
    port (some "0") = .num 5000 ∧
    port (some "not a number") = .num 5000 ∧
    port (some "3000") = .num 3000 := by
  refine ⟨?_, by decide, by decide, by decide, by decide, by decide⟩
  intro env
  unfold port jsOrNum
  cases h : jsNumber env with
  | nan => simp [jsFalsy]
  | num q =>
    by_cases hq : q = 0
    · simp [jsFalsy, hq]
    · simp [jsFalsy, hq]

end FileUploader
